import Mathlib

/-!
Verification of the API-routing core of the `agent8` repository
(`src/apis/api_manager.py`, `src/apis/gemini_client.py`,
`src/apis/perplexity_client.py`).

The Python code is shallowly embedded as pure Lean functions.  Network
effects are captured by an `Env` value holding the outcome of each
provider's upstream call (success with a raw reply, or a raised error),
and every operation additionally returns the list of network calls it
performed, so that "zero network calls" and "no further candidate is
invoked" become statements about that trace.

Python `ValueError`s raised by the manager are distinguished by their
message in the source; here they are distinguished by constructor of
`Err` (`configurationError` for "No APIs available for request type",
`unsupportedCategory` for "<X> API does not support request type").
Python dictionaries whose key set is dynamic (the upstream `usage`
mapping) are association lists; dictionaries the code builds with a
fixed literal key set are structures.
-/

namespace Agent8

/-- The `usage` mapping of a response: a Python `Dict[str, int]`
whose key set is not statically fixed (the Perplexity client passes the
upstream dictionary through verbatim). -/
abbrev Usage := List (String × Nat)

/-- Python `d.get(key, 0)` on a usage dictionary. -/
def usageGet (u : Usage) (k : String) : Nat := (u.lookup k).getD 0

/-- A usage dictionary the code builds with the literal keys
`prompt_tokens`, `completion_tokens`, `total_tokens` (the Gemini client
and the synthesizer always construct all three). -/
structure UsageTriple where
  prompt_tokens : Nat
  completion_tokens : Nat
  total_tokens : Nat
deriving DecidableEq, Repr

/-- The dictionary literal `{"prompt_tokens": p, "completion_tokens": c,
"total_tokens": t}` as an association list. -/
def UsageTriple.toUsage (u : UsageTriple) : Usage :=
  [("prompt_tokens", u.prompt_tokens),
   ("completion_tokens", u.completion_tokens),
   ("total_tokens", u.total_tokens)]

/-- A citation record is an opaque upstream mapping (URL/title/snippet);
the router never inspects it, it is only moved around. -/
abbrev Citation := List (String × String)

/-- A safety rating entry as built by `GeminiClient.generate_text`
(`{"category": ..., "probability": ...}`). -/
structure SafetyRating where
  category : String
  probability : String
deriving DecidableEq, Repr

/-- Values stored in a response's `metadata` dictionary. -/
inductive MetaVal where
  | s : String → MetaVal
  | n : Nat → MetaVal
  | strList : List String → MetaVal
  | safety : Option (List SafetyRating) → MetaVal
deriving DecidableEq, Repr

/-- Python `metadata: Dict[str, Any]`. -/
abbrev Metadata := List (String × MetaVal)

/-- Embeds `APIType`, the request-category enumeration of `api_manager.py`. -/
inductive APIType where
  | reasoning
  | search
  | generation
  | analysis
  | fact_check
deriving DecidableEq, Repr

/-- The two provider client objects held by `APIManager`; the routing
table stores them and `_execute_request` dispatches on their runtime
type (`isinstance`). -/
inductive Client where
  | gemini
  | perplexity
deriving DecidableEq, Repr

/-- Errors raised by the embedded code.  `upstream` stands for any
exception escaping a provider's network call; the two `ValueError`s of
`api_manager.py` are distinguished by constructor as they are by
message in the source. -/
inductive Err where
  | upstream : String → Err
  | configurationError : APIType → Err
  | unsupportedCategory : String → APIType → Err
  | indexError : Err
deriving DecidableEq, Repr

/-- One network round-trip, for call traces. -/
inductive Call where
  | geminiGenerate
  | perplexityChat
deriving DecidableEq, Repr

/-- Embeds `APIResponse`, the unified response dataclass of `api_manager.py`. -/
structure APIResponse where
  content : String
  source : String
  usage : Usage
  metadata : Metadata
  citations : Option (List Citation) := none
deriving DecidableEq, Repr

/-- The `usage_metadata` of a raw Gemini reply (`prompt_token_count`,
`candidates_token_count`, `total_token_count`). -/
structure GeminiUsageMetadata where
  prompt_token_count : Nat
  candidates_token_count : Nat
  total_token_count : Nat
deriving DecidableEq, Repr

/-- One candidate of a raw Gemini reply. -/
structure RawGeminiCandidate where
  finish_reason : String
  safety_ratings : List SafetyRating
deriving DecidableEq, Repr

/-- The raw upstream Gemini reply consumed by
`GeminiClient.generate_text`. -/
structure RawGeminiReply where
  text : Option String
  usage_metadata : Option GeminiUsageMetadata
  candidates : List RawGeminiCandidate
deriving DecidableEq, Repr

/-- One element of `data["choices"]` in a raw Perplexity reply. -/
structure RawPerplexityChoice where
  message_content : String
  finish_reason : String
deriving DecidableEq, Repr

/-- The raw upstream JSON consumed by
`PerplexityClient.search_and_answer`: `choices`, optional top-level
`citations`, optional `usage`. -/
structure RawPerplexityReply where
  choices : List RawPerplexityChoice
  citations : Option (List Citation)
  usage : Option Usage
deriving DecidableEq, Repr

/-- The network environment of one manager operation: the outcome of
each provider's upstream call (an error stands for the exception the
call raises), plus the event-loop clock used for timestamps. -/
structure Env where
  gemini : Except Err RawGeminiReply
  perplexity : Except Err RawPerplexityReply
  now : Nat

/-- Embeds the `GeminiResponse` dataclass of `gemini_client.py`; its `usage` is the
three-key dictionary literal the client always builds. -/
structure GeminiResponse where
  content : String
  usage : UsageTriple
  model : String
  finish_reason : String
  safety_ratings : Option (List SafetyRating) := none
deriving DecidableEq, Repr

/-- Embeds the `PerplexityResponse` dataclass of `perplexity_client.py`; its
`usage` is the upstream dictionary passed through verbatim. -/
structure PerplexityResponse where
  content : String
  citations : List Citation
  usage : Usage
  model : String
  finish_reason : String
deriving DecidableEq, Repr

/-- Model identifiers from the settings object. -/
def gemini_model_name : String := "gemini"
def perplexity_model_name : String := "perplexity"

/-- Embeds `GeminiClient.generate_text`: one upstream call, then normalization.
`content` is `response.text if response.text else ""` (Python
truthiness: `None` and `""` both yield `""`); each usage count defaults
to 0 when `usage_metadata` is absent; `finish_reason` is `"UNKNOWN"`
without candidates; `safety_ratings` is `None` when there are no
candidates or the first candidate's list is empty. -/
def generate_text (env : Env) (_prompt : String)
    (_system_instruction : Option String) :
    Except Err GeminiResponse × List Call :=
  match env.gemini with
  | .error e => (.error e, [.geminiGenerate])
  | .ok raw =>
      let content : String :=
        match raw.text with
        | some t => if t.isEmpty then "" else t
        | none => ""
      let usage : UsageTriple :=
        match raw.usage_metadata with
        | some m => ⟨m.prompt_token_count, m.candidates_token_count,
                     m.total_token_count⟩
        | none => ⟨0, 0, 0⟩
      let finish_reason : String :=
        match raw.candidates with
        | [] => "UNKNOWN"
        | c :: _ => c.finish_reason
      let safety_ratings : Option (List SafetyRating) :=
        match raw.candidates with
        | [] => none
        | c :: _ =>
            if c.safety_ratings.isEmpty then none else some c.safety_ratings
      (.ok { content := content, usage := usage, model := gemini_model_name,
             finish_reason := finish_reason, safety_ratings := safety_ratings },
       [.geminiGenerate])

/-- Embeds `PerplexityClient.search_and_answer`: one upstream POST, then
normalization.  `choices[0]` raises `IndexError` on an empty list;
citations are taken only when requested and present; `usage` is
`data.get("usage", {})`. -/
def search_and_answer (env : Env) (_query : String)
    (_system_message : Option String) (return_citations : Bool) :
    Except Err PerplexityResponse × List Call :=
  match env.perplexity with
  | .error e => (.error e, [.perplexityChat])
  | .ok data =>
      match data.choices with
      | [] => (.error .indexError, [.perplexityChat])
      | choice :: _ =>
          let citations : List Citation :=
            if return_citations then
              match data.citations with
              | some cs => cs
              | none => []
            else []
          let usage : Usage := data.usage.getD []
          (.ok { content := choice.message_content, citations := citations,
                 usage := usage, model := perplexity_model_name,
                 finish_reason := choice.finish_reason },
           [.perplexityChat])

/-- The result dictionary of `PerplexityClient.fact_check`. -/
structure FactCheckResult where
  statement : String
  verification : String
  citations : List Citation
  usage : Usage
  timestamp : Nat
deriving DecidableEq, Repr

/-- Embeds `PerplexityClient.fact_check`: wraps `search_and_answer` with a
fact-checking prompt and `return_citations=True`. -/
def fact_check (env : Env) (statement : String) :
    Except Err FactCheckResult × List Call :=
  let query := "Fact-check this statement: " ++ statement
  match search_and_answer env query (some "fact-check system message") true with
  | (.error e, calls) => (.error e, calls)
  | (.ok r, calls) =>
      (.ok { statement := statement, verification := r.content,
             citations := r.citations, usage := r.usage,
             timestamp := env.now },
       calls)

/-- Embeds `APIManager._execute_gemini_request`: category gate, then one
`generate_text` call normalized into an `APIResponse`. -/
def execute_gemini_request (env : Env) (request_type : APIType)
    (prompt : String) : Except Err APIResponse × List Call :=
  if request_type = .reasoning ∨ request_type = .generation ∨
     request_type = .analysis then
    match generate_text env prompt none with
    | (.error e, calls) => (.error e, calls)
    | (.ok r, calls) =>
        (.ok { content := r.content, source := "gemini",
               usage := r.usage.toUsage,
               metadata := [("model", .s r.model),
                            ("finish_reason", .s r.finish_reason),
                            ("safety_ratings", .safety r.safety_ratings)] },
         calls)
  else
    (.error (.unsupportedCategory "Gemini" request_type), [])

/-- Embeds `APIManager._execute_perplexity_request`: category gate, then either
the fact-check specialization or a plain search call. -/
def execute_perplexity_request (env : Env) (request_type : APIType)
    (prompt : String) : Except Err APIResponse × List Call :=
  if request_type = .search ∨ request_type = .analysis ∨
     request_type = .fact_check then
    if request_type = .fact_check then
      match fact_check env prompt with
      | (.error e, calls) => (.error e, calls)
      | (.ok result, calls) =>
          (.ok { content := result.verification, source := "perplexity",
                 usage := result.usage,
                 metadata := [("timestamp", .n result.timestamp)],
                 citations := some result.citations },
           calls)
    else
      match search_and_answer env prompt none true with
      | (.error e, calls) => (.error e, calls)
      | (.ok r, calls) =>
          (.ok { content := r.content, source := "perplexity",
                 usage := r.usage,
                 metadata := [("model", .s r.model),
                              ("finish_reason", .s r.finish_reason)],
                 citations := some r.citations },
           calls)
  else
    (.error (.unsupportedCategory "Perplexity" request_type), [])

/-- Embeds `APIManager._execute_request`: dynamic dispatch on the client's
runtime type. -/
def execute_request (env : Env) (api_client : Client)
    (request_type : APIType) (prompt : String) :
    Except Err APIResponse × List Call :=
  match api_client with
  | .gemini => execute_gemini_request env request_type prompt
  | .perplexity => execute_perplexity_request env request_type prompt

/-- The static routing table built in `APIManager.__init__`. -/
def api_routing : APIType → List Client
  | .reasoning => [.gemini]
  | .search => [.perplexity]
  | .generation => [.gemini]
  | .analysis => [.gemini, .perplexity]
  | .fact_check => [.perplexity]

/-- The fallback loop of `route_request`: try each remaining candidate
in order, returning the first success, `none` when all fail
(intermediate errors are only logged). -/
def try_fallbacks (env : Env) (apis : List Client)
    (request_type : APIType) (prompt : String) :
    Option APIResponse × List Call :=
  match apis with
  | [] => (none, [])
  | api :: rest =>
      match execute_request env api request_type prompt with
      | (.ok r, calls) => (some r, calls)
      | (.error _, calls) =>
          let (res, more) := try_fallbacks env rest request_type prompt
          (res, calls ++ more)

/-- Embeds `APIManager.route_request` over an arbitrary routing table (the
table is object state fixed at construction; `self.api_routing.get`
with default `[]` makes an absent category indistinguishable from an
empty candidate list).  Raises `ValueError` when no candidate exists,
tries the primary, then each fallback in order, and re-raises the
primary's error `e` when every candidate failed. -/
def route_request (routing : APIType → List Client) (env : Env)
    (request_type : APIType) (prompt : String) :
    Except Err APIResponse × List Call :=
  match routing request_type with
  | [] => (.error (.configurationError request_type), [])
  | primary :: rest =>
      match execute_request env primary request_type prompt with
      | (.ok r, calls) => (.ok r, calls)
      | (.error e, calls) =>
          let (fb, fbCalls) := try_fallbacks env rest request_type prompt
          match fb with
          | some r => (.ok r, calls ++ fbCalls)
          | none => (.error e, calls ++ fbCalls)

/-- Embeds `APIManager.hybrid_request`: one `route_request` per requested
category, failures captured per task (`asyncio.gather` with
`return_exceptions=True`), each failed label omitted from the result
dictionary.  The function is total: per-task failures never escape. -/
def hybrid_request (env : Env) (prompt : String)
    (use_search : Bool) (use_reasoning : Bool) :
    List (String × APIResponse) × List Call :=
  let tasks : List (Except Err APIResponse × List Call) :=
    (if use_search then [route_request api_routing env .search prompt]
     else []) ++
    (if use_reasoning then [route_request api_routing env .reasoning prompt]
     else [])
  let responses := tasks.map Prod.fst
  let calls := (tasks.map Prod.snd).flatten
  let searchPart : List (String × APIResponse) :=
    if use_search then
      match responses with
      | .ok r :: _ => [("search", r)]
      | _ => []
    else []
  let reasoning_index := if use_search then 1 else 0
  let reasoningPart : List (String × APIResponse) :=
    if use_reasoning then
      match responses.drop reasoning_index with
      | .ok r :: _ => [("reasoning", r)]
      | _ => []
    else []
  (searchPart ++ reasoningPart, calls)

/-- The usage-accumulation loop of `synthesize_responses`:
`total_usage[key] += response.usage.get(key, 0)` for the three keys. -/
def accumulate_usage (acc : UsageTriple) (u : Usage) : UsageTriple :=
  ⟨acc.prompt_tokens + usageGet u "prompt_tokens",
   acc.completion_tokens + usageGet u "completion_tokens",
   acc.total_tokens + usageGet u "total_tokens"⟩

/-- The citation-collection loop of `synthesize_responses`:
`if response.citations: all_citations.extend(response.citations)`
(Python truthiness: `None` and the empty list are both skipped). -/
def collect_citations (acc : List Citation)
    (citations : Option (List Citation)) : List Citation :=
  match citations with
  | some cs => if cs.isEmpty then acc else acc ++ cs
  | none => acc

/-- Embeds `APIManager.synthesize_responses`: concatenates the labeled input
contents, collects citations and sums usage over the inputs in
iteration order, delegates generation to the Gemini client once, adds
the synthesis call's own usage, and wraps the result with
`source = "synthesized"` and `metadata["sources"]` = the input labels.
Any error of the Gemini call is re-raised unchanged. -/
def synthesize_responses (env : Env)
    (responses : List (String × APIResponse))
    (synthesis_prompt : Option String) :
    Except Err APIResponse × List Call :=
  let sp := synthesis_prompt.getD
    "Synthesize the following information into a comprehensive response:"
  let combined_content := responses.map
    (fun p => "From " ++ p.1 ++ ":\n" ++ p.2.content)
  let all_citations := responses.foldl
    (fun acc p => collect_citations acc p.2.citations) []
  let input_usage := responses.foldl
    (fun acc p => accumulate_usage acc p.2.usage) ⟨0, 0, 0⟩
  let full_prompt := sp ++ "\n\n" ++ String.intercalate "\n\n" combined_content
  match generate_text env full_prompt
      (some "You are an expert at synthesizing information from multiple sources. Provide a comprehensive, well-structured response that combines the best insights from all sources.") with
  | (.error e, calls) => (.error e, calls)
  | (.ok sr, calls) =>
      let total_usage : UsageTriple :=
        ⟨input_usage.prompt_tokens + sr.usage.prompt_tokens,
         input_usage.completion_tokens + sr.usage.completion_tokens,
         input_usage.total_tokens + sr.usage.total_tokens⟩
      (.ok { content := sr.content, source := "synthesized",
             usage := total_usage.toUsage,
             metadata := [("sources", .strList (responses.map Prod.fst)),
                          ("synthesis_model", .s sr.model)],
             citations := some all_citations },
       calls)

/-- The `source` string each provider client stamps on its responses. -/
def client_source : Client → String
  | .gemini => "gemini"
  | .perplexity => "perplexity"

/-- Whether a response's usage mapping contains all three token keys. -/
def response_has_usage_keys (r : APIResponse) : Bool :=
  (r.usage.lookup "prompt_tokens").isSome &&
  (r.usage.lookup "completion_tokens").isSome &&
  (r.usage.lookup "total_tokens").isSome

/-- A well-formed raw Perplexity reply for concrete runs. -/
def raw_perplexity_ok : RawPerplexityReply :=
  { choices := [{ message_content := "perplexity answer",
                  finish_reason := "stop" }],
    citations := some [[("url", "a")]],
    usage := some [("prompt_tokens", 1), ("completion_tokens", 2),
                   ("total_tokens", 3)] }

/-- Environment in which both providers' calls raise. -/
def env_both_fail : Env :=
  { gemini := .error (.upstream "gemini down"),
    perplexity := .error (.upstream "perplexity down"),
    now := 0 }

/-- Environment in which the Gemini call raises and the Perplexity call
succeeds. -/
def env_gemini_fail : Env :=
  { gemini := .error (.upstream "gemini down"),
    perplexity := .ok raw_perplexity_ok,
    now := 0 }

/-- Environment in which the Perplexity upstream reply omits the
`usage` field entirely. -/
def env_no_usage : Env :=
  { gemini := .error (.upstream "gemini down"),
    perplexity := .ok { choices := [{ message_content := "ans",
                                      finish_reason := "stop" }],
                        citations := none, usage := none },
    now := 0 }

/-- Environment in which the Gemini upstream reply omits its usage
metadata. -/
def env_gemini_nousage : Env :=
  { gemini := .ok { text := some "g", usage_metadata := none,
                    candidates := [] },
    perplexity := .error (.upstream "perplexity down"),
    now := 0 }

/-- Environment whose Gemini call reports usage `{3, 2, 5}`. -/
def env_synth : Env :=
  { gemini := .ok { text := some "combined",
                    usage_metadata := some ⟨3, 2, 5⟩, candidates := [] },
    perplexity := .error (.upstream "unused"),
    now := 0 }

/-- Concrete citation records. -/
def cit1 : Citation := [("url", "c1")]
def cit2 : Citation := [("url", "c2")]

/-- A search-style input response with usage `{10, 5, 15}` and
citations `[c1]`. -/
def respA : APIResponse :=
  { content := "A", source := "perplexity",
    usage := (UsageTriple.toUsage ⟨10, 5, 15⟩), metadata := [],
    citations := some [cit1] }

/-- A reasoning-style input response with usage `{20, 10, 30}` and
citations `[c1, c2]`. -/
def respB : APIResponse :=
  { content := "B", source := "gemini",
    usage := (UsageTriple.toUsage ⟨20, 10, 30⟩), metadata := [],
    citations := some [cit1, cit2] }

/-- The two-entry input mapping for the synthesis runs. -/
def synth_inputs : List (String × APIResponse) :=
  [("search", respA), ("reasoning", respB)]

/-- Placeholder response used only to extract `Except.ok` payloads of
concrete runs. -/
def default_response : APIResponse :=
  { content := "", source := "", usage := [], metadata := [],
    citations := none }

/-- The response produced by the concrete synthesis run. -/
def synth_result_response : APIResponse :=
  ((synthesize_responses env_synth synth_inputs none).1).toOption.getD
    default_response

/-- The Gemini response of the concrete synthesis call itself. -/
def synth_call_response : GeminiResponse :=
  ((generate_text env_synth "" none).1).toOption.getD
    { content := "", usage := ⟨0, 0, 0⟩, model := "",
      finish_reason := "", safety_ratings := none }

/-- The response produced by routing `reasoning` in
`env_gemini_nousage`. -/
def route_nousage_response : APIResponse :=
  ((route_request api_routing env_gemini_nousage .reasoning "q").1).toOption.getD
    default_response

/-- C10: `hybrid_request` with `use_search = false` and
`use_reasoning = false` issues no route call at all (empty call trace)
and returns the empty mapping without raising. -/
theorem hybrid_no_flags_empty (env : Env) (p : String) :
    hybrid_request env p false false = ([], []) := rfl

/-- C8: for every routing table, environment and prompt, a category
whose candidate list is empty (which is how an absent category reads
through `dict.get` with default `[]`) makes `route_request` fail with
the configuration error before any provider call is made. -/
theorem route_no_candidates_config_error (routing : APIType → List Client)
    (env : Env) (t : APIType) (p : String) (h : routing t = []) :
    route_request routing env t p =
      (.error (.configurationError t), []) := by
  simp only [route_request, h]

/-- Witness for C8 at a concrete empty table. -/
theorem route_no_candidates_config_error_witness :
    route_request (fun _ => []) env_both_fail .search "q" =
      (.error (.configurationError .search), []) :=
  route_no_candidates_config_error (fun _ => []) env_both_fail .search "q" rfl

/-- C7: dispatching a category a provider client does not support
(Gemini: anything outside reasoning/generation/analysis; Perplexity:
anything outside search/analysis/fact_check) fails immediately with the
unsupported-category error, with an empty network-call trace and no
retry. -/
theorem unsupported_category_rejected (env : Env) (p : String) (t : APIType) :
    (¬(t = .reasoning ∨ t = .generation ∨ t = .analysis) →
       execute_gemini_request env t p =
         (.error (.unsupportedCategory "Gemini" t), [])) ∧
    (¬(t = .search ∨ t = .analysis ∨ t = .fact_check) →
       execute_perplexity_request env t p =
         (.error (.unsupportedCategory "Perplexity" t), [])) := by
  constructor
  · intro h
    simp only [execute_gemini_request, if_neg h]
  · intro h
    simp only [execute_perplexity_request, if_neg h]

/-- Witness for C7: Gemini rejects `fact_check`, Perplexity rejects
`reasoning`, both with empty call traces. -/
theorem unsupported_category_rejected_witness :
    execute_gemini_request env_both_fail .fact_check "q" =
      (.error (.unsupportedCategory "Gemini" .fact_check), []) ∧
    execute_perplexity_request env_both_fail .reasoning "q" =
      (.error (.unsupportedCategory "Perplexity" .reasoning), []) :=
  ⟨(unsupported_category_rejected env_both_fail "q" .fact_check).1 (by decide),
   (unsupported_category_rejected env_both_fail "q" .reasoning).2 (by decide)⟩

/-- When every remaining candidate fails, the fallback loop produces no
response. -/
theorem try_fallbacks_all_fail (env : Env) (t : APIType) (p : String) :
    ∀ apis : List Client,
      (∀ c ∈ apis, ∃ e, (execute_request env c t p).1 = .error e) →
      (try_fallbacks env apis t p).1 = none := by
  intro apis
  induction apis with
  | nil => intro _; rfl
  | cons a rest ih =>
      intro h
      obtain ⟨e, he⟩ := h a (List.mem_cons_self a rest)
      have hrest : ∀ c ∈ rest, ∃ e, (execute_request env c t p).1 = .error e :=
        fun c hc => h c (List.mem_cons_of_mem a hc)
      rcases hx : execute_request env a t p with ⟨res, calls⟩
      rw [hx] at he
      simp only at he
      subst he
      rcases hy : try_fallbacks env rest t p with ⟨res2, more⟩
      have h2 := ih hrest
      rw [hy] at h2
      simp only at h2
      subst h2
      simp only [try_fallbacks, hx, hy]

/-- Any response the fallback loop produces came from one of the
candidates' dispatch calls. -/
theorem try_fallbacks_some_exec (env : Env) (t : APIType) (p : String) :
    ∀ (apis : List Client) (r : APIResponse),
      (try_fallbacks env apis t p).1 = some r →
      ∃ c, (execute_request env c t p).1 = .ok r := by
  intro apis
  induction apis with
  | nil => intro r h; simp [try_fallbacks] at h
  | cons a rest ih =>
      intro r h
      rcases hx : execute_request env a t p with ⟨res, calls⟩
      cases res with
      | ok r' =>
          simp only [try_fallbacks, hx] at h
          obtain rfl := Option.some.inj h
          exact ⟨a, by simp [hx]⟩
      | error e =>
          rcases hy : try_fallbacks env rest t p with ⟨res2, more⟩
          simp only [try_fallbacks, hx, hy] at h
          exact ih r (by rw [hy, h])

/-- C1: for every routing table, category with at least two candidates,
environment and prompt, when the first candidate fails and every
remaining candidate also fails, `route_request` surfaces exactly the
first candidate's error (the code re-raises the original error object,
which is the underlying cause the total-failure error carries — not the
last candidate's error). -/
theorem route_all_fail_first_error (routing : APIType → List Client)
    (env : Env) (t : APIType) (p : String) (a b : Client)
    (rest : List Client) (e₁ : Err)
    (hroute : routing t = a :: b :: rest)
    (ha : (execute_request env a t p).1 = .error e₁)
    (hrest : ∀ c ∈ b :: rest, ∃ e, (execute_request env c t p).1 = .error e) :
    (route_request routing env t p).1 = .error e₁ := by
  rcases hx : execute_request env a t p with ⟨res, calls⟩
  rw [hx] at ha
  simp only at ha
  subst ha
  rcases hy : try_fallbacks env (b :: rest) t p with ⟨fb, fbCalls⟩
  have hnone := try_fallbacks_all_fail env t p (b :: rest) hrest
  rw [hy] at hnone
  simp only at hnone
  subst hnone
  simp only [route_request, hroute, hx, hy]

/-- Witness for C1: in `env_both_fail`, routing `analysis` (candidates
`[gemini, perplexity]`, both failing) surfaces the Gemini error, not
the Perplexity one. -/
theorem route_all_fail_first_error_witness :
    (route_request api_routing env_both_fail .analysis "q").1 =
      .error (.upstream "gemini down") :=
  route_all_fail_first_error api_routing env_both_fail .analysis "q"
    .gemini .perplexity [] (.upstream "gemini down") rfl rfl
    (by
      intro c hc
      rw [List.mem_singleton] at hc
      subst hc
      exact ⟨.upstream "perplexity down", rfl⟩)

/-- A successful dispatch stamps the client's own identity into the
response's `source` field. -/
theorem exec_ok_source (env : Env) (c : Client) (t : APIType) (p : String)
    (r : APIResponse) (h : (execute_request env c t p).1 = .ok r) :
    r.source = client_source c := by
  cases c
  · simp only [execute_request, execute_gemini_request] at h
    split at h
    · split at h
      · simp at h
      · injection h with h'
        subst h'
        rfl
    · simp at h
  · simp only [execute_request, execute_perplexity_request] at h
    split at h
    · split at h
      · split at h
        · simp at h
        · injection h with h'
          subst h'
          rfl
      · split at h
        · simp at h
        · injection h with h'
          subst h'
          rfl
    · simp at h

/-- C2: for every routing table, environment and prompt, a category
with candidate list `[a, b]` where `a`'s call fails and `b`'s call
succeeds makes `route_request` return `b`'s response — whose `source`
is `b`'s identity — and the call trace is exactly the two candidates'
calls: no candidate after the first success is ever invoked. -/
theorem route_fallback_returns_second (routing : APIType → List Client)
    (env : Env) (t : APIType) (p : String) (a b : Client) (e : Err)
    (r : APIResponse) (callsA callsB : List Call)
    (hroute : routing t = [a, b])
    (ha : execute_request env a t p = (.error e, callsA))
    (hb : execute_request env b t p = (.ok r, callsB)) :
    route_request routing env t p = (.ok r, callsA ++ callsB) ∧
      r.source = client_source b := by
  constructor
  · simp only [route_request, hroute, ha, try_fallbacks, hb]
  · exact exec_ok_source env b t p r (by rw [hb])

/-- Witness for C2: in `env_gemini_fail`, routing `analysis` falls back
from the failing Gemini client to the succeeding Perplexity client,
whose response (source `"perplexity"`) is returned after exactly two
calls. -/
theorem route_fallback_returns_second_witness :
    route_request api_routing env_gemini_fail .analysis "q" =
      (.ok { content := "perplexity answer", source := "perplexity",
             usage := [("prompt_tokens", 1), ("completion_tokens", 2),
                       ("total_tokens", 3)],
             metadata := [("model", .s perplexity_model_name),
                          ("finish_reason", .s "stop")],
             citations := some [[("url", "a")]] },
       [.geminiGenerate, .perplexityChat]) ∧
    ({ content := "perplexity answer", source := "perplexity",
       usage := [("prompt_tokens", 1), ("completion_tokens", 2),
                 ("total_tokens", 3)],
       metadata := [("model", .s perplexity_model_name),
                    ("finish_reason", .s "stop")],
       citations := some [[("url", "a")]] } : APIResponse).source =
      client_source .perplexity :=
  route_fallback_returns_second api_routing env_gemini_fail .analysis "q"
    .gemini .perplexity (.upstream "gemini down") _ [.geminiGenerate]
    [.perplexityChat] rfl rfl rfl

/-- Any response `route_request` returns came from one of the
candidates' dispatch calls. -/
theorem route_ok_exec (routing : APIType → List Client) (env : Env)
    (t : APIType) (p : String) (r : APIResponse)
    (h : (route_request routing env t p).1 = .ok r) :
    ∃ c, (execute_request env c t p).1 = .ok r := by
  rcases hr : routing t with _ | ⟨prim, rest⟩
  · simp only [route_request, hr] at h
    exact Except.noConfusion h
  · rcases hx : execute_request env prim t p with ⟨res, calls⟩
    cases res with
    | ok r' =>
        simp only [route_request, hr, hx] at h
        obtain rfl := Except.ok.inj h
        exact ⟨prim, by simp [hx]⟩
    | error e =>
        rcases hy : try_fallbacks env rest t p with ⟨fb, fbCalls⟩
        cases fb with
        | some r' =>
            simp only [route_request, hr, hx, hy] at h
            obtain rfl := Except.ok.inj h
            exact try_fallbacks_some_exec env t p rest r' (by simp [hy])
        | none =>
            simp only [route_request, hr, hx, hy] at h
            exact Except.noConfusion h

/-- A successful Gemini dispatch always carries all three usage keys. -/
theorem exec_gemini_ok_keys (env : Env) (t : APIType) (p : String)
    (r : APIResponse) (h : (execute_gemini_request env t p).1 = .ok r) :
    response_has_usage_keys r = true := by
  simp only [execute_gemini_request] at h
  split at h
  · split at h
    · simp at h
    · injection h with h'
      subst h'
      rfl
  · simp at h

/-- A successful `search_and_answer` passes the upstream usage mapping
through verbatim (defaulting to the empty mapping when absent). -/
theorem search_ok_usage (env : Env) (q : String) (sm : Option String)
    (rc : Bool) (r : PerplexityResponse)
    (h : (search_and_answer env q sm rc).1 = .ok r) :
    ∃ raw, env.perplexity = .ok raw ∧ r.usage = raw.usage.getD [] := by
  rcases henv : env.perplexity with e | raw
  · simp only [search_and_answer, henv] at h
    exact Except.noConfusion h
  · simp only [search_and_answer, henv] at h
    rcases hch : raw.choices with _ | ⟨choice, more⟩
    · simp only [hch] at h
      exact Except.noConfusion h
    · simp only [hch] at h
      injection h with h'
      exact ⟨raw, rfl, by rw [← h']⟩

/-- A successful `fact_check` passes the upstream usage mapping through
verbatim. -/
theorem fact_check_ok_usage (env : Env) (s : String)
    (res : FactCheckResult) (h : (fact_check env s).1 = .ok res) :
    ∃ raw, env.perplexity = .ok raw ∧ res.usage = raw.usage.getD [] := by
  simp only [fact_check] at h
  rcases hx : search_and_answer env ("Fact-check this statement: " ++ s)
      (some "fact-check system message") true with ⟨sres, calls⟩
  rw [hx] at h
  cases sres with
  | error e => simp at h
  | ok r' =>
      simp only at h
      injection h with h'
      obtain ⟨raw, hraw, hu⟩ := search_ok_usage env
        ("Fact-check this statement: " ++ s)
        (some "fact-check system message") true r' (by simp [hx])
      refine ⟨raw, hraw, ?_⟩
      rw [← h']
      exact hu

/-- A successful Perplexity dispatch carries the upstream usage mapping
verbatim, on both the fact-check and the plain search path. -/
theorem exec_perplexity_ok_usage (env : Env) (t : APIType) (p : String)
    (r : APIResponse) (h : (execute_perplexity_request env t p).1 = .ok r) :
    ∃ raw, env.perplexity = .ok raw ∧ r.usage = raw.usage.getD [] := by
  simp only [execute_perplexity_request] at h
  split at h
  · split at h
    · rcases hf : fact_check env p with ⟨fres, calls⟩
      rw [hf] at h
      cases fres with
      | error e => simp at h
      | ok result =>
          simp only at h
          injection h with h'
          obtain ⟨raw, hraw, hu⟩ := fact_check_ok_usage env p result
            (by simp [hf])
          refine ⟨raw, hraw, ?_⟩
          rw [← h']
          exact hu
    · rcases hs : search_and_answer env p none true with ⟨sres, calls⟩
      rw [hs] at h
      cases sres with
      | error e => simp at h
      | ok r' =>
          simp only at h
          injection h with h'
          obtain ⟨raw, hraw, hu⟩ := search_ok_usage env p none true r'
            (by simp [hs])
          refine ⟨raw, hraw, ?_⟩
          rw [← h']
          exact hu
  · simp at h

/-- When the raw Gemini reply omits its usage metadata, a successful
Gemini dispatch reports all three usage keys as 0. -/
theorem exec_gemini_ok_nousage (env : Env) (t : APIType) (p : String)
    (r : APIResponse) (raw : RawGeminiReply)
    (h : (execute_gemini_request env t p).1 = .ok r)
    (henv : env.gemini = .ok raw) (hmeta : raw.usage_metadata = none) :
    r.usage = [("prompt_tokens", 0), ("completion_tokens", 0),
               ("total_tokens", 0)] := by
  simp only [execute_gemini_request] at h
  split at h
  · simp only [generate_text, henv, hmeta] at h
    injection h with h'
    rw [← h']
    rfl
  · simp at h

/-- C3 (amended): a response `route_request` returns with source
`"gemini"` always carries all three usage keys — each 0 when the
upstream reply omits its usage metadata — while a response with source
`"perplexity"` carries the upstream usage mapping verbatim, so its keys
may be absent when the upstream omits them. -/
theorem route_usage_keys_amended (routing : APIType → List Client)
    (env : Env) (t : APIType) (p : String) (r : APIResponse)
    (h : (route_request routing env t p).1 = .ok r) :
    (r.source = "gemini" → response_has_usage_keys r = true) ∧
    (r.source = "perplexity" →
       ∃ raw, env.perplexity = .ok raw ∧ r.usage = raw.usage.getD []) ∧
    (r.source = "gemini" → ∀ raw, env.gemini = .ok raw →
       raw.usage_metadata = none →
       r.usage = [("prompt_tokens", 0), ("completion_tokens", 0),
                  ("total_tokens", 0)]) := by
  obtain ⟨c, hc⟩ := route_ok_exec routing env t p r h
  have hsrc := exec_ok_source env c t p r hc
  refine ⟨?_, ?_, ?_⟩
  · intro hs
    cases c with
    | gemini => exact exec_gemini_ok_keys env t p r hc
    | perplexity =>
        rw [hs] at hsrc
        exact absurd hsrc (by decide)
  · intro hs
    cases c with
    | gemini =>
        rw [hs] at hsrc
        exact absurd hsrc (by decide)
    | perplexity => exact exec_perplexity_ok_usage env t p r hc
  · intro hs raw henv hmeta
    cases c with
    | gemini => exact exec_gemini_ok_nousage env t p r raw hc henv hmeta
    | perplexity =>
        rw [hs] at hsrc
        exact absurd hsrc (by decide)

/-- Counterexample to C3 as stated: in `env_no_usage` the upstream
Perplexity reply omits `usage`, and the response `route_request`
returns for `search` lacks all three usage keys rather than defaulting
them to 0. -/
theorem route_usage_keys_counterexample :
    ((route_request api_routing env_no_usage .search "q").1).toOption.map
      response_has_usage_keys = some false := rfl

/-- Witness for C3 (amended) on the Gemini path: routing `reasoning`
in `env_gemini_nousage` yields a response with all three usage keys, all
zero. -/
theorem route_usage_keys_amended_witness :
    response_has_usage_keys route_nousage_response = true ∧
    route_nousage_response.usage =
      [("prompt_tokens", 0), ("completion_tokens", 0),
       ("total_tokens", 0)] := by
  have h := route_usage_keys_amended api_routing env_gemini_nousage
    .reasoning "q" route_nousage_response rfl
  exact ⟨h.1 rfl, h.2.2 rfl _ rfl rfl⟩

/-- Looking `prompt_tokens` up in a three-key usage dictionary yields
the corresponding field. -/
theorem usageGet_toUsage_prompt (u : UsageTriple) :
    usageGet u.toUsage "prompt_tokens" = u.prompt_tokens := rfl

/-- Looking `completion_tokens` up in a three-key usage dictionary
yields the corresponding field. -/
theorem usageGet_toUsage_completion (u : UsageTriple) :
    usageGet u.toUsage "completion_tokens" = u.completion_tokens := rfl

/-- Looking `total_tokens` up in a three-key usage dictionary yields
the corresponding field. -/
theorem usageGet_toUsage_total (u : UsageTriple) :
    usageGet u.toUsage "total_tokens" = u.total_tokens := rfl

/-- The usage-accumulation loop computes, in each component, the sum of
that usage field over the inputs. -/
theorem accumulate_usage_fold (rs : List (String × APIResponse)) :
    ∀ a : UsageTriple,
      rs.foldl (fun acc p => accumulate_usage acc p.2.usage) a =
        ⟨a.prompt_tokens +
           (rs.map (fun p => usageGet p.2.usage "prompt_tokens")).sum,
         a.completion_tokens +
           (rs.map (fun p => usageGet p.2.usage "completion_tokens")).sum,
         a.total_tokens +
           (rs.map (fun p => usageGet p.2.usage "total_tokens")).sum⟩ := by
  induction rs with
  | nil => intro a; simp
  | cons x xs ih =>
      intro a
      rw [List.foldl_cons, ih]
      simp only [accumulate_usage, List.map_cons, List.sum_cons,
        UsageTriple.mk.injEq]
      omega

/-- The citation-collection step always appends the (possibly empty)
citation list of the next input. -/
theorem collect_citations_eq (acc : List Citation)
    (oc : Option (List Citation)) :
    collect_citations acc oc = acc ++ oc.getD [] := by
  cases oc with
  | none => simp [collect_citations]
  | some cs =>
      cases cs with
      | nil => simp [collect_citations]
      | cons c cs' => simp [collect_citations]

/-- The citation-collection loop concatenates every input's citation
list in iteration order. -/
theorem collect_citations_fold (rs : List (String × APIResponse)) :
    ∀ acc : List Citation,
      rs.foldl (fun acc p => collect_citations acc p.2.citations) acc =
        acc ++ (rs.map (fun p => p.2.citations.getD [])).flatten := by
  induction rs with
  | nil => intro acc; simp
  | cons x xs ih =>
      intro acc
      rw [List.foldl_cons, collect_citations_eq, ih]
      simp [List.append_assoc]

/-- C4: each usage field of a successful synthesis equals the sum of
that field over all input responses plus the same field of the
synthesis call's own usage (`generate_text`'s outcome depends only on
the environment, so its response `sr` is fixed by `env`). -/
theorem synthesize_usage_sums (env : Env)
    (rs : List (String × APIResponse)) (sp : Option String)
    (r : APIResponse) (sr : GeminiResponse)
    (hg : (generate_text env "" none).1 = .ok sr)
    (h : (synthesize_responses env rs sp).1 = .ok r) :
    usageGet r.usage "prompt_tokens" =
      (rs.map (fun p => usageGet p.2.usage "prompt_tokens")).sum +
        sr.usage.prompt_tokens ∧
    usageGet r.usage "completion_tokens" =
      (rs.map (fun p => usageGet p.2.usage "completion_tokens")).sum +
        sr.usage.completion_tokens ∧
    usageGet r.usage "total_tokens" =
      (rs.map (fun p => usageGet p.2.usage "total_tokens")).sum +
        sr.usage.total_tokens := by
  rcases henv : env.gemini with e | raw
  · simp only [generate_text, henv] at hg
    exact Except.noConfusion hg
  · simp only [generate_text, henv] at hg
    simp only [synthesize_responses, generate_text, henv] at h
    injection hg with hg'
    injection h with h'
    subst hg'
    rw [← h']
    have hacc := accumulate_usage_fold rs ⟨0, 0, 0⟩
    refine ⟨?_, ?_, ?_⟩ <;>
      simp [usageGet_toUsage_prompt, usageGet_toUsage_completion,
        usageGet_toUsage_total, hacc]

/-- Witness for C4: inputs with usage `{10, 5, 15}` and `{20, 10, 30}`
plus a synthesis call reporting `{3, 2, 5}` yield exactly
`{33, 17, 50}`. -/
theorem synthesize_usage_sums_witness :
    usageGet synth_result_response.usage "prompt_tokens" = 33 ∧
    usageGet synth_result_response.usage "completion_tokens" = 17 ∧
    usageGet synth_result_response.usage "total_tokens" = 50 := by
  have h := synthesize_usage_sums env_synth synth_inputs none
    synth_result_response synth_call_response rfl rfl
  refine ⟨?_, ?_, ?_⟩
  · rw [h.1]; rfl
  · rw [h.2.1]; rfl
  · rw [h.2.2]; rfl

/-- C5: the citation sequence of a successful synthesis is the
concatenation of every input response's citation sequence in the input
mapping's iteration order, with no de-duplication. -/
theorem synthesize_citations_concat (env : Env)
    (rs : List (String × APIResponse)) (sp : Option String)
    (r : APIResponse) (h : (synthesize_responses env rs sp).1 = .ok r) :
    r.citations =
      some ((rs.map (fun p => p.2.citations.getD [])).flatten) := by
  rcases henv : env.gemini with e | raw
  · simp only [synthesize_responses, generate_text, henv] at h
    exact Except.noConfusion h
  · simp only [synthesize_responses, generate_text, henv] at h
    injection h with h'
    rw [← h']
    simp only [collect_citations_fold, List.nil_append]

/-- Witness for C5: inputs with citations `[c1]` and `[c1, c2]`
synthesize to `[c1, c1, c2]`. -/
theorem synthesize_citations_concat_witness :
    synth_result_response.citations = some [cit1, cit1, cit2] := by
  have h := synthesize_citations_concat env_synth synth_inputs none
    synth_result_response rfl
  rw [h]
  rfl

/-- C9: `synthesize_responses` performs exactly one Gemini generation
call and never a Perplexity call (so there is no fallback), re-raises
any error of that call unchanged, and on success returns a response
with source `"synthesized"` whose `metadata["sources"]` is the list of
input labels. -/
theorem synthesize_delegates_to_gemini (env : Env)
    (rs : List (String × APIResponse)) (sp : Option String) :
    (synthesize_responses env rs sp).2 = [Call.geminiGenerate] ∧
    (∀ e, env.gemini = .error e →
       (synthesize_responses env rs sp).1 = .error e) ∧
    (∀ r, (synthesize_responses env rs sp).1 = .ok r →
       r.source = "synthesized" ∧
       r.metadata.lookup "sources" =
         some (.strList (rs.map Prod.fst))) := by
  refine ⟨?_, ?_, ?_⟩
  · rcases henv : env.gemini with e | raw <;>
      simp [synthesize_responses, generate_text, henv]
  · intro e he
    simp [synthesize_responses, generate_text, he]
  · intro r h
    rcases henv : env.gemini with e | raw
    · simp only [synthesize_responses, generate_text, henv] at h
      exact Except.noConfusion h
    · simp only [synthesize_responses, generate_text, henv] at h
      injection h with h'
      rw [← h']
      exact ⟨rfl, rfl⟩

/-- Witness for C9: with the Gemini call failing, the error is
re-raised unchanged; in the successful concrete run the source is
`"synthesized"` and the recorded labels are the input labels. -/
theorem synthesize_delegates_to_gemini_witness :
    (synthesize_responses env_both_fail synth_inputs none).1 =
      .error (.upstream "gemini down") ∧
    synth_result_response.source = "synthesized" ∧
    synth_result_response.metadata.lookup "sources" =
      some (.strList ["search", "reasoning"]) := by
  refine ⟨?_, ?_⟩
  · exact (synthesize_delegates_to_gemini env_both_fail synth_inputs
      none).2.1 (.upstream "gemini down") rfl
  · exact (synthesize_delegates_to_gemini env_synth synth_inputs
      none).2.2 synth_result_response rfl

/-- Closed form of `hybrid_request`'s result mapping: one entry per
requested category whose route call succeeded. -/
theorem hybrid_request_eq (env : Env) (p : String) (us ur : Bool) :
    (hybrid_request env p us ur).1 =
      (if us then
        match (route_request api_routing env .search p).1 with
        | .ok r => [("search", r)]
        | .error _ => []
       else []) ++
      (if ur then
        match (route_request api_routing env .reasoning p).1 with
        | .ok r => [("reasoning", r)]
        | .error _ => []
       else []) := by
  rcases hs : route_request api_routing env .search p with ⟨sres, scalls⟩
  rcases hr : route_request api_routing env .reasoning p with ⟨rres, rcalls⟩
  cases us <;> cases ur <;> cases sres <;> cases rres <;>
    simp [hybrid_request, hs, hr]

/-- C6: for every combination of the `use_search`/`use_reasoning`
flags, `hybrid_request` is total (it returns a mapping instead of
raising): a category whose route call failed has its label absent from
the result, when both route calls fail the result is the empty mapping,
and a failure of one category never disturbs the sibling's successful
entry. -/
theorem hybrid_failures_isolated (env : Env) (p : String) (us ur : Bool) :
    (∀ e, (route_request api_routing env .search p).1 = .error e →
       ((hybrid_request env p us ur).1.lookup "search") = none) ∧
    (∀ e, (route_request api_routing env .reasoning p).1 = .error e →
       ((hybrid_request env p us ur).1.lookup "reasoning") = none) ∧
    (∀ e₁ e₂, (route_request api_routing env .search p).1 = .error e₁ →
       (route_request api_routing env .reasoning p).1 = .error e₂ →
       (hybrid_request env p us ur).1 = []) ∧
    (∀ e r, (route_request api_routing env .search p).1 = .error e →
       (route_request api_routing env .reasoning p).1 = .ok r →
       ur = true →
       (hybrid_request env p us ur).1.lookup "reasoning" = some r) ∧
    (∀ e r, (route_request api_routing env .reasoning p).1 = .error e →
       (route_request api_routing env .search p).1 = .ok r →
       us = true →
       (hybrid_request env p us ur).1.lookup "search" = some r) := by
  refine ⟨?_, ?_, ?_, ?_, ?_⟩
  · intro e he
    rw [hybrid_request_eq, he]
    cases us <;> cases ur <;>
      rcases hr : (route_request api_routing env .reasoning p).1 with e' | r <;>
        simp [hr, List.lookup]
  · intro e he
    rw [hybrid_request_eq, he]
    cases us <;> cases ur <;>
      rcases hs : (route_request api_routing env .search p).1 with e' | r <;>
        simp [hs, List.lookup]
  · intro e₁ e₂ hs hr
    rw [hybrid_request_eq, hs, hr]
    cases us <;> cases ur <;> simp
  · intro e r hs hr hur
    subst hur
    rw [hybrid_request_eq, hs, hr]
    cases us <;> simp [List.lookup]
  · intro e r hr hs hus
    subst hus
    rw [hybrid_request_eq, hs, hr]
    cases ur <;> simp [List.lookup]

/-- Witness for C6: with both providers down and both flags set, the
hybrid call returns the empty mapping rather than an error. -/
theorem hybrid_failures_isolated_witness :
    (hybrid_request env_both_fail "q" true true).1 = [] :=
  (hybrid_failures_isolated env_both_fail "q" true true).2.2.1
    (.upstream "perplexity down") (.upstream "gemini down") rfl rfl

end Agent8
